import Mathlib

/-!
Verification of the basic-mcp repository: a server exposing one "add" tool
and an LLM-integrated client orchestrating tool calls.

The embedding models the three source files:
- `src/server.py`: the `add` handler and its registration metadata;
- `src/client.py`: the `MCPOpenAIClient` orchestrator (`get_mcp_tools`,
  `process_query`, `_send_to_openai`, `_handle_tool_calls`) and `main`;
- `src/client-sse.py`: the raw protocol client `main`.

External collaborators (the LLM provider, the MCP transport session, JSON
decoding) are modelled as oracle functions in an `Env` record; each
orchestrator operation returns its result together with an explicit trace
of the external calls it issued, so that round-trip counts, dispatch order
and failure propagation are provable statements.
-/

namespace BasicMCP

/-- Flat JSON-like values used for tool-call arguments. -/
inductive JValue where
  | jnull
  | jbool (b : Bool)
  | jint (n : Int)
  | jstr (s : String)
deriving DecidableEq

/-- JSON schema primitive types, as used in a tool's input schema. -/
inductive JType where
  | integer
  | number
  | str
  | boolean
deriving DecidableEq

/-- Modelled from the spec: the structured input-schema object generated by
the MCP SDK (FastMCP, not in src/) from the handler's type hints; the spec
describes it as a mapping of parameter names to declared types. -/
structure InputSchema where
  properties : List (String × JType)
  required : List String
deriving DecidableEq

/-- A tool descriptor as fetched from the transport session
(`tool.name`, `tool.description`, `tool.inputSchema` in src/client.py). -/
structure ToolDescriptor where
  name : String
  description : String
  inputSchema : InputSchema
deriving DecidableEq

/-! ## Server (src/server.py) -/

/-- The `add` handler from src/server.py: `return a + b`. Python integers
are arbitrary precision, so they are modelled as `Int`. -/
def add (a b : Int) : Int := a + b

/-- The descriptor of the sole registered tool: name from the decorated
function, description from its docstring, input schema from the `a : int`,
`b : int` type hints. -/
def addTool : ToolDescriptor :=
  { name := "add"
    description := "Add two numbers together"
    inputSchema := { properties := [("a", JType.integer), ("b", JType.integer)]
                     required := ["a", "b"] } }

/-- The server's declared output type for `add` (the `-> int` hint). -/
def addOutputType : JType := JType.integer

/-- The server's tool registry contents: exactly the one `add` tool. -/
def serverTools : List ToolDescriptor := [addTool]

/-- Failure taxonomy of the client code paths (spec taxonomy plus the
failures raised by the orchestrator itself: the `ValueError` in
`_send_to_openai`, JSON decode failure in `json.loads`, and out-of-range
list access). -/
inductive Err where
  | valueError
  | providerError (msg : String)
  | unknownTool
  | invalidArguments
  | transportError (msg : String)
  | jsonDecodeError
  | indexError
deriving DecidableEq

/-- Modelled from the spec: the Tool Registry invoke operation (`invoke
(name, arguments)`), provided by the MCP SDK rather than src/; it fails
with `UnknownTool` for an unregistered name and `InvalidArguments` on a
schema mismatch, and dispatches to the src-defined `add` handler. -/
def invoke (name : String) (args : List (String × JValue)) : Except Err JValue :=
  if name = "add" then
    match args.lookup "a", args.lookup "b" with
    | some (JValue.jint a), some (JValue.jint b) => Except.ok (JValue.jint (add a b))
    | _, _ => Except.error Err.invalidArguments
  else
    Except.error Err.unknownTool

/-! ## Client data model (src/client.py) -/

/-- Conversation roles used by the client. -/
inductive Role where
  | user
  | assistant
  | tool
deriving DecidableEq

/-- A tool-call request produced by the LLM (`tool_call.id`,
`tool_call.function.name`, `tool_call.function.arguments`, the arguments
being a raw JSON string that the client decodes with `json.loads`). -/
structure ToolCallRequest where
  id : String
  name : String
  arguments : String
deriving DecidableEq

/-- A conversation message. The user and tool dicts built in src/client.py
and the assistant message object returned by the provider are unified into
one record; absent fields are `none` / `[]`. -/
structure Message where
  role : Role
  content : Option String
  tool_call_id : Option String := none
  tool_calls : List ToolCallRequest := []
deriving DecidableEq

/-- A tool translated to the OpenAI function-calling format
(the dict literal built in `get_mcp_tools`). -/
structure OpenAIFunction where
  name : String
  description : String
  parameters : InputSchema
deriving DecidableEq

structure OpenAITool where
  type : String
  function : OpenAIFunction
deriving DecidableEq

/-- One item of a call-tool result's `content` list (`.text` accessor). -/
structure ContentItem where
  text : String
deriving DecidableEq

/-- Result of the transport session's call-tool operation. -/
structure CallToolResult where
  content : List ContentItem
deriving DecidableEq

/-- One choice of a chat-completions response (`choice.message`). -/
structure Choice where
  message : Message
deriving DecidableEq

/-- A chat-completions response (`response.choices`). -/
structure LLMResponse where
  choices : List Choice
deriving DecidableEq

/-- Trace of external calls issued by the orchestrator: one `llm` event per
chat-completions request (recording the message history, the tools and the
tool-choice argument sent), one `tool` event per call-tool dispatch. -/
inductive Event where
  | llm (messages : List Message) (tools : Option (List OpenAITool)) (toolChoice : String)
  | tool (name : String) (args : List (String × JValue))
deriving DecidableEq

def Event.isLlm : Event → Bool
  | Event.llm _ _ _ => true
  | Event.tool _ _ => false

def Event.isToolEvt : Event → Bool
  | Event.llm _ _ _ => false
  | Event.tool _ _ => true

/-- The tool name of a `tool` event, if any. -/
def Event.toolName? : Event → Option String
  | Event.llm _ _ _ => none
  | Event.tool n _ => some n

/-- Number of LLM round trips recorded in a trace. -/
def countLlm (tr : List Event) : Nat := (tr.filter Event.isLlm).length

/-- Number of call-tool dispatches recorded in a trace. -/
def countTool (tr : List Event) : Nat := (tr.filter Event.isToolEvt).length

/-- Oracle environment: the external collaborators of the client.
`llm` is the chat-completions endpoint (its failures are provider errors),
`listTools` and `callTool` are the transport session primitives, and
`jsonLoads` is the JSON decoder applied to tool-call argument strings. -/
structure Env where
  llm : List Message → Option (List OpenAITool) → String → Except String LLMResponse
  listTools : Except Err (List ToolDescriptor)
  callTool : String → List (String × JValue) → Except Err CallToolResult
  jsonLoads : String → Option (List (String × JValue))

/-! ## Client operations (src/client.py) -/

/-- The translation applied to each descriptor in `get_mcp_tools`. -/
def toOpenAITool (t : ToolDescriptor) : OpenAITool :=
  { type := "function"
    function := { name := t.name
                  description := t.description
                  parameters := t.inputSchema } }

/-- `MCPOpenAIClient.get_mcp_tools`: fetch the descriptors from the session
and translate each to the OpenAI function-calling format. -/
def getMcpTools (env : Env) : Except Err (List OpenAITool) :=
  match env.listTools with
  | Except.error e => Except.error e
  | Except.ok ts => Except.ok (ts.map toOpenAITool)

/-- The user-message dict literal built in src/client.py. -/
def userMessage (q : String) : Message :=
  { role := Role.user, content := some q }

/-- Python truthiness of the optional `query` argument:
falsy when `None` or the empty string. -/
def queryFalsy : Option String → Bool
  | none => true
  | some q => q == ""

/-- Python truthiness of the optional `messages` argument:
falsy when `None` or the empty list. -/
def messagesFalsy : Option (List Message) → Bool
  | none => true
  | some ms => ms.isEmpty

/-- The chat-completions request itself: one `llm` trace event; provider
failures surface as `providerError`. -/
def llmStep (env : Env) (msgs : List Message) (tools : Option (List OpenAITool))
    (toolChoice : String) : Except Err LLMResponse × List Event :=
  match env.llm msgs tools toolChoice with
  | Except.error m => (Except.error (Err.providerError m), [Event.llm msgs tools toolChoice])
  | Except.ok r => (Except.ok r, [Event.llm msgs tools toolChoice])

/-- `MCPOpenAIClient._send_to_openai`: raise `ValueError` when both
`query` and `messages` are falsy; otherwise default `messages` to the
single user message, and call the provider with `tool_choice = "auto"`
when tool calls are allowed and `"none"` otherwise. -/
def sendToOpenai (env : Env) (query : Option String) (messages : Option (List Message))
    (tools : Option (List OpenAITool)) (allowToolCalls : Bool) :
    Except Err LLMResponse × List Event :=
  if messagesFalsy messages && queryFalsy query then
    (Except.error Err.valueError, [])
  else
    let msgs := if messagesFalsy messages then [userMessage (query.getD "")]
                else messages.getD []
    llmStep env msgs tools (if allowToolCalls then "auto" else "none")

/-- The tool-role message dict literal built in `_handle_tool_calls`:
result text keyed by the request's id. -/
def toolMessage (tc : ToolCallRequest) (t : String) : Message :=
  { role := Role.tool, content := some t, tool_call_id := some tc.id }

/-- `MCPOpenAIClient._handle_tool_calls`: for each tool call in order,
decode its arguments, dispatch it to the session, and append a tool-role
message whose content is `result.content[0].text` (out-of-range when the
content list is empty) keyed by the request's id. The Python code mutates
the `messages` list; the model threads it and returns the final list. -/
def handleToolCalls (env : Env) : List ToolCallRequest → List Message →
    Except Err (List Message) × List Event
  | [], messages => (Except.ok messages, [])
  | tc :: rest, messages =>
    match env.jsonLoads tc.arguments with
    | none => (Except.error Err.jsonDecodeError, [])
    | some args =>
      match env.callTool tc.name args with
      | Except.error e => (Except.error e, [Event.tool tc.name args])
      | Except.ok result =>
        match result.content with
        | [] => (Except.error Err.indexError, [Event.tool tc.name args])
        | item :: _ =>
          let rec1 := handleToolCalls env rest (messages ++ [toolMessage tc item.text])
          (rec1.1, Event.tool tc.name args :: rec1.2)

/-- `MCPOpenAIClient.process_query`: fetch tools, first LLM call with the
query and tools enabled; if the assistant message has no tool calls return
its content; otherwise dispatch every tool call and issue the follow-up
LLM call on the augmented history with tool choice "none", returning the
final response's content. `choices[0]` accesses are out-of-range on an
empty choice list. -/
def processQuery (env : Env) (query : String) :
    Except Err (Option String) × List Event :=
  match getMcpTools env with
  | Except.error e => (Except.error e, [])
  | Except.ok tools =>
    match sendToOpenai env (some query) (some []) (some tools) true with
    | (Except.error e, tr1) => (Except.error e, tr1)
    | (Except.ok response, tr1) =>
      match response.choices with
      | [] => (Except.error Err.indexError, tr1)
      | choice :: _ =>
        let assistantMessage := choice.message
        let messages := [userMessage query, assistantMessage]
        if assistantMessage.tool_calls.isEmpty then
          (Except.ok assistantMessage.content, tr1)
        else
          match handleToolCalls env assistantMessage.tool_calls messages with
          | (Except.error e, tr2) => (Except.error e, tr1 ++ tr2)
          | (Except.ok messages2, tr2) =>
            match sendToOpenai env (some "") (some messages2) (some tools) false with
            | (Except.error e, tr3) => (Except.error e, tr1 ++ tr2 ++ tr3)
            | (Except.ok finalResponse, tr3) =>
              match finalResponse.choices with
              | [] => (Except.error Err.indexError, tr1 ++ tr2 ++ tr3)
              | fc :: _ => (Except.ok fc.message.content, tr1 ++ tr2 ++ tr3)

/-! ## Top-level routines (src/client.py `main`, src/client-sse.py `main`) -/

/-- Resource/lifecycle events of the top-level routines: context-manager
entries and exits of the SSE transport and the client session, and the
uses made of the connection between them. -/
inductive REvent where
  | sseAcquire
  | sessionAcquire
  | sessionInit
  | listToolsCall
  | queryRun
  | callToolUse
  | sessionRelease
  | sseRelease
deriving DecidableEq

/-- Outcomes of entering the two context managers and of
`session.initialize()`, modelled as oracles. -/
structure MainEnv where
  sseConnect : Except Err Unit
  sessionEnter : Except Err Unit
  sessInit : Except Err Unit

/-- Python `async with` semantics: run the acquisition; when it succeeds,
run the body and then the release action unconditionally, whether the body
succeeded or failed; when the acquisition itself fails, the body and the
release do not run. -/
def asyncWith {α : Type} (acquire : Except Err Unit) (acquireEvt releaseEvt : REvent)
    (body : Except Err α × List REvent) : Except Err α × List REvent :=
  match acquire with
  | Except.error e => (Except.error e, [acquireEvt])
  | Except.ok _ => (body.1, acquireEvt :: (body.2 ++ [releaseEvt]))

/-- `MCPOpenAIClient.connect_to_server`: initialize the session, store it,
then list the tools (printing them). -/
def connectToServer (menv : MainEnv) (env : Env) : Except Err Unit × List REvent :=
  match menv.sessInit with
  | Except.error e => (Except.error e, [REvent.sessionInit])
  | Except.ok _ =>
    match env.listTools with
    | Except.error e => (Except.error e, [REvent.sessionInit, REvent.listToolsCall])
    | Except.ok _ => (Except.ok (), [REvent.sessionInit, REvent.listToolsCall])

/-- The query hard-coded in src/client.py `main`. -/
def mainQuery : String := "What\x27s 1 plus 1?"

/-- src/client.py `main`: inside the SSE transport context and the client
session context, connect to the server and process the hard-coded query. -/
def runMain (menv : MainEnv) (env : Env) : Except Err (Option String) × List REvent :=
  asyncWith menv.sseConnect REvent.sseAcquire REvent.sseRelease
    (asyncWith menv.sessionEnter REvent.sessionAcquire REvent.sessionRelease
      (match connectToServer menv env with
       | (Except.error e, tr) => (Except.error e, tr)
       | (Except.ok _, tr) => ((processQuery env mainQuery).1, tr ++ [REvent.queryRun])))

/-- src/client-sse.py `main`: inside the same two contexts, initialize,
list the tools, call the `add` tool with `a = 2`, `b = 3` and read
`result.content[0].text`. -/
def runMainSse (menv : MainEnv) (env : Env) : Except Err String × List REvent :=
  asyncWith menv.sseConnect REvent.sseAcquire REvent.sseRelease
    (asyncWith menv.sessionEnter REvent.sessionAcquire REvent.sessionRelease
      (match menv.sessInit with
       | Except.error e => (Except.error e, [REvent.sessionInit])
       | Except.ok _ =>
         match env.listTools with
         | Except.error e => (Except.error e, [REvent.sessionInit, REvent.listToolsCall])
         | Except.ok _ =>
           match env.callTool "add" [("a", JValue.jint 2), ("b", JValue.jint 3)] with
           | Except.error e =>
             (Except.error e, [REvent.sessionInit, REvent.listToolsCall, REvent.callToolUse])
           | Except.ok result =>
             match result.content with
             | [] => (Except.error Err.indexError,
                      [REvent.sessionInit, REvent.listToolsCall, REvent.callToolUse])
             | item :: _ => (Except.ok item.text,
                             [REvent.sessionInit, REvent.listToolsCall, REvent.callToolUse])))

/-- The tail of `process_query`'s tool branch: the follow-up
chat-completions call on the augmented history with tool choice "none",
and the `choices[0].message.content` read of its response. -/
def finalFromLLM (env : Env) (msgs : List Message) (tools : List OpenAITool) :
    Except Err (Option String) :=
  match env.llm msgs (some tools) "none" with
  | Except.error m => Except.error (Err.providerError m)
  | Except.ok fr =>
    match fr.choices with
    | [] => Except.error Err.indexError
    | fc :: _ => Except.ok fc.message.content

/-! ## Witness environments -/

/-- An environment whose session exposes exactly the server's tool list. -/
def wEnvTools : Env :=
  { llm := fun _ _ _ => Except.error "unused"
    listTools := Except.ok [addTool]
    callTool := fun _ _ => Except.error Err.unknownTool
    jsonLoads := fun _ => none }

/-- An inert environment for exercising `_send_to_openai` alone. -/
def wEnvSend : Env :=
  { llm := fun _ _ _ => Except.ok { choices := [] }
    listTools := Except.ok []
    callTool := fun _ _ => Except.error Err.unknownTool
    jsonLoads := fun _ => none }

/-- A concrete tool-call request for the `add` tool. -/
def wTCa : ToolCallRequest :=
  { id := "call-1", name := "add", arguments := "args-a1-b1" }

/-- A concrete tool-call request for a tool answering with empty content. -/
def wTCb : ToolCallRequest :=
  { id := "call-2", name := "mystery", arguments := "args-none" }

/-- The decoded arguments used by the scripted environments. -/
def wArgs : List (String × JValue) := [("a", JValue.jint 1), ("b", JValue.jint 1)]

/-- An environment whose call-tool result for "add" has two content items
and whose result for any other tool has an empty content list. -/
def wEnvContent : Env :=
  { llm := fun _ _ _ => Except.error "unused"
    listTools := Except.ok [addTool]
    callTool := fun n _ =>
      if n = "add" then Except.ok { content := [{ text := "2" }, { text := "extra" }] }
      else Except.ok { content := [] }
    jsonLoads := fun _ => some wArgs }

/-- The assistant message produced by the scripted first LLM response:
one tool call for `add(1, 1)`. -/
def wAsstMessage : Message :=
  { role := Role.assistant, content := none, tool_calls := [wTCa] }

/-- The assistant message of the scripted final LLM response. -/
def wFinalMessage : Message :=
  { role := Role.assistant, content := some "1 plus 1 is 2." }

/-- The assistant message of a scripted direct textual response. -/
def wDirectMessage : Message :=
  { role := Role.assistant, content := some "Hello there." }

/-- A scripted full-flow environment: the first LLM call (tool choice
"auto") requests `add(1, 1)`, the session computes 2 via the registry
`invoke`, and the follow-up call (tool choice "none") answers textually. -/
def wEnvFlow : Env :=
  { llm := fun _ _ tc =>
      if tc = "auto" then Except.ok { choices := [{ message := wAsstMessage }] }
      else Except.ok { choices := [{ message := wFinalMessage }] }
    listTools := Except.ok [addTool]
    callTool := fun n args =>
      match invoke n args with
      | Except.error e => Except.error e
      | Except.ok (JValue.jint v) => Except.ok { content := [{ text := toString v }] }
      | Except.ok _ => Except.error Err.invalidArguments
    jsonLoads := fun _ => some wArgs }

/-- A scripted environment answering every query directly with text and no
tool calls. -/
def wEnvDirect : Env :=
  { llm := fun _ _ _ => Except.ok { choices := [{ message := wDirectMessage }] }
    listTools := Except.ok [addTool]
    callTool := fun _ _ => Except.error Err.unknownTool
    jsonLoads := fun _ => none }

/-- A scripted environment whose transport fails on every call-tool
dispatch. -/
def wEnvFail : Env :=
  { llm := fun _ _ tc =>
      if tc = "auto" then Except.ok { choices := [{ message := wAsstMessage }] }
      else Except.ok { choices := [{ message := wFinalMessage }] }
    listTools := Except.ok [addTool]
    callTool := fun _ _ => Except.error (Err.transportError "connection lost")
    jsonLoads := fun _ => some wArgs }

/-- The augmented history after dispatching the scripted tool call. -/
def wMsgs2 : List Message := [userMessage "q1", wAsstMessage, toolMessage wTCa "2"]

/-- The tool-event trace of the scripted dispatch. -/
def wTr2 : List Event := [Event.tool "add" wArgs]

/-- The OpenAI-format tool list of the scripted environments. -/
def wTools : List OpenAITool := [addTool].map toOpenAITool

/-- A main-environment whose context acquisitions all succeed. -/
def wMainEnv : MainEnv :=
  { sseConnect := Except.ok ()
    sessionEnter := Except.ok ()
    sessInit := Except.ok () }

/-- An environment whose transport session fails to list tools, for
exercising the failure path of the top-level routines. -/
def wEnvDown : Env :=
  { llm := fun _ _ _ => Except.error "unused"
    listTools := Except.error (Err.transportError "connection lost")
    callTool := fun _ _ => Except.error (Err.transportError "connection lost")
    jsonLoads := fun _ => none }

/-! ## Helper lemmas -/

theorem llmStep_snd (env : Env) (msgs : List Message) (tools : Option (List OpenAITool))
    (tc : String) : (llmStep env msgs tools tc).2 = [Event.llm msgs tools tc] := by
  unfold llmStep
  cases env.llm msgs tools tc <;> rfl

theorem llmStep_fst_ne_valueError (env : Env) (msgs : List Message)
    (tools : Option (List OpenAITool)) (tc : String) :
    (llmStep env msgs tools tc).1 ≠ Except.error Err.valueError := by
  unfold llmStep
  cases env.llm msgs tools tc <;> simp

theorem queryFalsy_some_ne (q : String) (h : q ≠ "") : queryFalsy (some q) = false := by
  simp [queryFalsy, h]

theorem sendToOpenai_of_falsy (env : Env) (query : Option String)
    (messages : Option (List Message)) (tools : Option (List OpenAITool)) (allow : Bool)
    (hm : messagesFalsy messages = true) (hq : queryFalsy query = true) :
    sendToOpenai env query messages tools allow = (Except.error Err.valueError, []) := by
  unfold sendToOpenai
  rw [hm, hq]
  rfl

theorem sendToOpenai_of_query (env : Env) (query : Option String)
    (messages : Option (List Message)) (tools : Option (List OpenAITool)) (allow : Bool)
    (hm : messagesFalsy messages = true) (hq : queryFalsy query = false) :
    sendToOpenai env query messages tools allow =
      llmStep env [userMessage (query.getD "")] tools (if allow then "auto" else "none") := by
  unfold sendToOpenai
  rw [hm, hq]
  simp

theorem sendToOpenai_of_messages (env : Env) (query : Option String)
    (messages : Option (List Message)) (tools : Option (List OpenAITool)) (allow : Bool)
    (hm : messagesFalsy messages = false) :
    sendToOpenai env query messages tools allow =
      llmStep env (messages.getD []) tools (if allow then "auto" else "none") := by
  unfold sendToOpenai
  rw [hm]
  simp

/-- Successful `_handle_tool_calls` runs append to `msgs` exactly one
tool-role message per request, keyed by the request's id, in request
order, and the trace is one `tool` event per request in request order. -/
theorem handleToolCalls_ok_shape (env : Env) (tcs : List ToolCallRequest)
    (msgs msgs2 : List Message) (tr : List Event)
    (h : handleToolCalls env tcs msgs = (Except.ok msgs2, tr)) :
    ∃ newMsgs : List Message,
      msgs2 = msgs ++ newMsgs ∧
      newMsgs.map Message.role = tcs.map (fun _ => Role.tool) ∧
      newMsgs.map Message.tool_call_id = tcs.map (fun tc => some tc.id) ∧
      tr.map Event.toolName? = tcs.map (fun tc => some tc.name) := by
  induction tcs generalizing msgs msgs2 tr with
  | nil =>
    simp only [handleToolCalls, Prod.mk.injEq, Except.ok.injEq] at h
    exact ⟨[], by simp [h.1.symm], by simp, by simp, by simp [h.2.symm]⟩
  | cons tc rest ih =>
    cases hjl : env.jsonLoads tc.arguments with
    | none =>
      simp [handleToolCalls, hjl] at h
    | some args =>
      cases hct : env.callTool tc.name args with
      | error e =>
        simp [handleToolCalls, hjl, hct] at h
      | ok result =>
        cases hc : result.content with
        | nil =>
          simp [handleToolCalls, hjl, hct, hc] at h
        | cons item tail =>
          simp only [handleToolCalls, hjl, hct, hc, Prod.mk.injEq] at h
          obtain ⟨h1, h2⟩ := h
          cases hr : handleToolCalls env rest (msgs ++ [toolMessage tc item.text]) with
          | mk r2 t2 =>
            rw [hr] at h1 h2
            have hr2 : handleToolCalls env rest (msgs ++ [toolMessage tc item.text]) =
                (Except.ok msgs2, t2) := by
              rw [hr, show r2 = Except.ok msgs2 from h1]
            obtain ⟨newMsgs, hm, hrole, hid, htr⟩ := ih _ _ _ hr2
            refine ⟨toolMessage tc item.text :: newMsgs, ?_, ?_, ?_, ?_⟩
            · simpa using hm
            · simpa [toolMessage] using hrole
            · simpa [toolMessage] using hid
            · rw [← h2]
              simpa [Event.toolName?] using htr

/-- Failing `_handle_tool_calls` runs dispatch an order-preserving
initial segment of the requests and nothing else: each request is
dispatched at most once and no request after the failing one is
dispatched. -/
theorem handleToolCalls_error_shape (env : Env) (tcs : List ToolCallRequest)
    (msgs : List Message) (e : Err) (tr : List Event)
    (h : handleToolCalls env tcs msgs = (Except.error e, tr)) :
    tr.length ≤ tcs.length ∧
    tr.map Event.toolName? = (tcs.take tr.length).map (fun tc => some tc.name) := by
  induction tcs generalizing msgs tr with
  | nil =>
    simp [handleToolCalls] at h
  | cons tc rest ih =>
    cases hjl : env.jsonLoads tc.arguments with
    | none =>
      simp only [handleToolCalls, hjl, Prod.mk.injEq] at h
      rw [← h.2]
      simp
    | some args =>
      cases hct : env.callTool tc.name args with
      | error e2 =>
        simp only [handleToolCalls, hjl, hct, Prod.mk.injEq] at h
        rw [← h.2]
        simp [Event.toolName?]
      | ok result =>
        cases hc : result.content with
        | nil =>
          simp only [handleToolCalls, hjl, hct, hc, Prod.mk.injEq] at h
          rw [← h.2]
          simp [Event.toolName?]
        | cons item tail =>
          simp only [handleToolCalls, hjl, hct, hc, Prod.mk.injEq] at h
          obtain ⟨h1, h2⟩ := h
          cases hr : handleToolCalls env rest (msgs ++ [toolMessage tc item.text]) with
          | mk r2 t2 =>
            rw [hr] at h1 h2
            have hr2 : handleToolCalls env rest (msgs ++ [toolMessage tc item.text]) =
                (Except.error e, t2) := by
              rw [hr, show r2 = Except.error e from h1]
            obtain ⟨hlen, htr⟩ := ih _ _ hr2
            constructor
            · rw [← h2]
              simpa using Nat.succ_le_succ hlen
            · rw [← h2]
              simpa [Event.toolName?] using htr

theorem llmStep_of_ok (env : Env) (msgs : List Message) (tools : Option (List OpenAITool))
    (tc : String) (r : LLMResponse) (h : env.llm msgs tools tc = Except.ok r) :
    llmStep env msgs tools tc = (Except.ok r, [Event.llm msgs tools tc]) := by
  unfold llmStep
  rw [h]

theorem llmStep_of_error (env : Env) (msgs : List Message) (tools : Option (List OpenAITool))
    (tc : String) (m : String) (h : env.llm msgs tools tc = Except.error m) :
    llmStep env msgs tools tc =
      (Except.error (Err.providerError m), [Event.llm msgs tools tc]) := by
  unfold llmStep
  rw [h]

/-- The first chat-completions call of `process_query`: empty message list
and a non-empty query, tool choice "auto". -/
theorem sendToOpenai_fst_call (env : Env) (q : String) (tools : Option (List OpenAITool))
    (hq : q ≠ "") :
    sendToOpenai env (some q) (some []) tools true = llmStep env [userMessage q] tools "auto" := by
  rw [sendToOpenai_of_query env (some q) (some []) tools true rfl (queryFalsy_some_ne q hq)]
  simp

/-- The follow-up chat-completions call of `process_query`: empty query,
non-empty message history, tool choice "none". -/
theorem sendToOpenai_snd_call (env : Env) (m : Message) (ms : List Message)
    (tools : Option (List OpenAITool)) :
    sendToOpenai env (some "") (some (m :: ms)) tools false =
      llmStep env (m :: ms) tools "none" := by
  rw [sendToOpenai_of_messages env (some "") (some (m :: ms)) tools false rfl]
  simp

/-! ## Claim theorems -/

/-- C1: for all integers `a` and `b`, invoking the "add" tool with
arguments `a`, `b` returns `a + b` (Python integers are arbitrary
precision, modelled by `Int`; no overflow occurs). -/
theorem add_tool_returns_sum (a b : Int) :
    add a b = a + b ∧
    invoke "add" [("a", JValue.jint a), ("b", JValue.jint b)] =
      Except.ok (JValue.jint (a + b)) := by
  exact ⟨rfl, rfl⟩

/-- C7: the server's registry contains exactly one tool, named "add",
described "Add two numbers together", with integer parameters `a` and `b`,
integer output, and every other tool name is unknown to `invoke`. -/
theorem registry_single_add_tool :
    serverTools = [addTool] ∧
    addTool.name = "add" ∧
    addTool.description = "Add two numbers together" ∧
    addTool.inputSchema.properties = [("a", JType.integer), ("b", JType.integer)] ∧
    addOutputType = JType.integer ∧
    (∀ n, n ≠ "add" → ∀ args, invoke n args = Except.error Err.unknownTool) := by
  refine ⟨rfl, rfl, rfl, rfl, rfl, ?_⟩
  intro n hn args
  simp [invoke, hn]

theorem registry_single_add_tool_witness :
    invoke "mul" [] = Except.error Err.unknownTool :=
  registry_single_add_tool.2.2.2.2.2 "mul" (by decide) []

/-- C6: `get_mcp_tools` translates every fetched descriptor to
`type = "function"` with name and description copied and parameters equal
to the descriptor's input schema verbatim, preserving order and length. -/
theorem get_mcp_tools_translation (env : Env) (ts : List ToolDescriptor)
    (h : env.listTools = Except.ok ts) :
    getMcpTools env = Except.ok (ts.map toOpenAITool) ∧
    (ts.map toOpenAITool).length = ts.length ∧
    ∀ i (hi : i < ts.length),
      (ts.map toOpenAITool).get ⟨i, by simpa using hi⟩ =
        { type := "function"
          function := { name := (ts.get ⟨i, hi⟩).name
                        description := (ts.get ⟨i, hi⟩).description
                        parameters := (ts.get ⟨i, hi⟩).inputSchema } } := by
  refine ⟨by simp [getMcpTools, h], by simp, ?_⟩
  intro i hi
  simp [toOpenAITool]

theorem get_mcp_tools_translation_witness :
    getMcpTools wEnvTools = Except.ok ([addTool].map toOpenAITool) :=
  (get_mcp_tools_translation wEnvTools [addTool] rfl).1

/-- C9: `_send_to_openai` fails with `ValueError` exactly when both `query`
and `messages` are absent or empty; when `messages` is absent or empty but
`query` is non-empty it sends the single-element history
`[\x7brole: user, content: query\x7d]` instead of failing. -/
theorem send_to_openai_validation (env : Env) (query : Option String)
    (messages : Option (List Message)) (tools : Option (List OpenAITool)) (allow : Bool) :
    ((sendToOpenai env query messages tools allow).1 = Except.error Err.valueError ↔
      messagesFalsy messages = true ∧ queryFalsy query = true) ∧
    (∀ q, query = some q → q ≠ "" → messagesFalsy messages = true →
      sendToOpenai env query messages tools allow =
        llmStep env [userMessage q] tools (if allow then "auto" else "none") ∧
      (sendToOpenai env query messages tools allow).2 =
        [Event.llm [userMessage q] tools (if allow then "auto" else "none")] ∧
      (sendToOpenai env query messages tools allow).1 ≠ Except.error Err.valueError) := by
  constructor
  · constructor
    · intro h
      by_cases hm : messagesFalsy messages = true
      · by_cases hq : queryFalsy query = true
        · exact ⟨hm, hq⟩
        · rw [sendToOpenai_of_query env query messages tools allow hm
            (by simpa using hq)] at h
          exact absurd h (llmStep_fst_ne_valueError _ _ _ _)
      · rw [sendToOpenai_of_messages env query messages tools allow
          (by simpa using hm)] at h
        exact absurd h (llmStep_fst_ne_valueError _ _ _ _)
    · rintro ⟨hm, hq⟩
      rw [sendToOpenai_of_falsy env query messages tools allow hm hq]
  · intro q hqe hne hm
    subst hqe
    have hs := sendToOpenai_of_query env (some q) messages tools allow hm
      (queryFalsy_some_ne q hne)
    simp only [Option.getD_some] at hs
    refine ⟨hs, ?_, ?_⟩
    · rw [hs, llmStep_snd]
    · rw [hs]
      exact llmStep_fst_ne_valueError _ _ _ _

theorem send_to_openai_validation_witness :
    sendToOpenai wEnvSend (some "hi") none none true =
      llmStep wEnvSend [userMessage "hi"] none (if true then "auto" else "none") ∧
    (sendToOpenai wEnvSend (some "hi") none none true).2 =
      [Event.llm [userMessage "hi"] none (if true then "auto" else "none")] ∧
    (sendToOpenai wEnvSend (some "hi") none none true).1 ≠ Except.error Err.valueError :=
  (send_to_openai_validation wEnvSend (some "hi") none none true).2 "hi" rfl
    (by decide) rfl

/-- C10: dispatching a tool call appends a tool-role message whose content
is the text of only the first item of the result's content list, further
items being ignored; when the content list is empty the dispatch fails
out-of-range instead of appending a message. -/
theorem handle_tool_calls_first_content_item (env : Env)
    (tc1 tc2 : ToolCallRequest) (more1 more2 : List ToolCallRequest)
    (args1 args2 : List (String × JValue))
    (item : ContentItem) (rest : List ContentItem) (msgs : List Message)
    (h1 : env.jsonLoads tc1.arguments = some args1)
    (h2 : env.callTool tc1.name args1 = Except.ok { content := item :: rest })
    (h3 : env.jsonLoads tc2.arguments = some args2)
    (h4 : env.callTool tc2.name args2 = Except.ok { content := [] }) :
    handleToolCalls env (tc1 :: more1) msgs =
      ((handleToolCalls env more1 (msgs ++ [toolMessage tc1 item.text])).1,
        Event.tool tc1.name args1 ::
          (handleToolCalls env more1 (msgs ++ [toolMessage tc1 item.text])).2) ∧
    handleToolCalls env (tc2 :: more2) msgs =
      (Except.error Err.indexError, [Event.tool tc2.name args2]) := by
  constructor
  · simp [handleToolCalls, h1, h2]
  · simp [handleToolCalls, h3, h4]

theorem handle_tool_calls_first_content_item_witness :
    handleToolCalls wEnvContent [wTCa] [] =
      ((handleToolCalls wEnvContent [] ([] ++ [toolMessage wTCa "2"])).1,
        Event.tool wTCa.name [("a", JValue.jint 1), ("b", JValue.jint 1)] ::
          (handleToolCalls wEnvContent [] ([] ++ [toolMessage wTCa "2"])).2) ∧
    handleToolCalls wEnvContent [wTCb] [] =
      (Except.error Err.indexError,
        [Event.tool wTCb.name [("a", JValue.jint 1), ("b", JValue.jint 1)]]) :=
  handle_tool_calls_first_content_item wEnvContent wTCa wTCb [] [] _ _
    (ContentItem.mk "2") [ContentItem.mk "extra"] [] rfl rfl rfl rfl

/-- C3: when the first LLM response contains no tool-call requests,
`process_query` returns that response's text content after exactly one
LLM round trip, with no tool call dispatched. -/
theorem process_query_no_tool_calls (env : Env) (query : String)
    (ts : List ToolDescriptor) (resp : LLMResponse) (c : Choice) (cs : List Choice)
    (hq : query ≠ "")
    (hlt : env.listTools = Except.ok ts)
    (hllm : env.llm [userMessage query] (some (ts.map toOpenAITool)) "auto" = Except.ok resp)
    (hch : resp.choices = c :: cs)
    (htc : c.message.tool_calls = []) :
    processQuery env query =
      (Except.ok c.message.content,
        [Event.llm [userMessage query] (some (ts.map toOpenAITool)) "auto"]) ∧
    countLlm [Event.llm [userMessage query] (some (ts.map toOpenAITool)) "auto"] = 1 ∧
    countTool [Event.llm [userMessage query] (some (ts.map toOpenAITool)) "auto"] = 0 := by
  refine ⟨?_, rfl, rfl⟩
  unfold processQuery
  simp [show getMcpTools env = Except.ok (ts.map toOpenAITool) from by simp [getMcpTools, hlt],
    sendToOpenai_fst_call env query (some (ts.map toOpenAITool)) hq,
    llmStep_of_ok env _ _ _ resp hllm, hch, htc]

/-- The tool branch of `process_query`, fully characterized: with a
successful first response carrying tool calls and a successful dispatch
loop, the result is the follow-up call's outcome on the augmented
history, and the trace is the first llm event, then the tool events in
dispatch order, then the follow-up llm event. -/
theorem processQuery_tool_branch (env : Env) (query : String) (ts : List ToolDescriptor)
    (resp : LLMResponse) (c : Choice) (cs : List Choice)
    (msgs2 : List Message) (tr2 : List Event)
    (hq : query ≠ "")
    (hlt : env.listTools = Except.ok ts)
    (hllm : env.llm [userMessage query] (some (ts.map toOpenAITool)) "auto" = Except.ok resp)
    (hch : resp.choices = c :: cs)
    (htc : c.message.tool_calls ≠ [])
    (hht : handleToolCalls env c.message.tool_calls [userMessage query, c.message] =
      (Except.ok msgs2, tr2)) :
    processQuery env query =
      (finalFromLLM env msgs2 (ts.map toOpenAITool),
        Event.llm [userMessage query] (some (ts.map toOpenAITool)) "auto" ::
          (tr2 ++ [Event.llm msgs2 (some (ts.map toOpenAITool)) "none"])) := by
  obtain ⟨newMsgs, hm2, -, -, -⟩ := handleToolCalls_ok_shape env _ _ _ _ hht
  obtain ⟨tc0, tcs0, hcons⟩ := List.exists_cons_of_ne_nil htc
  rw [hcons] at hht
  have hmsgs2 : msgs2 = userMessage query :: c.message :: newMsgs := by simpa using hm2
  subst hmsgs2
  unfold processQuery
  simp only [show getMcpTools env = Except.ok (ts.map toOpenAITool) from by
      simp [getMcpTools, hlt],
    sendToOpenai_fst_call env query (some (ts.map toOpenAITool)) hq,
    llmStep_of_ok env _ _ _ resp hllm, hch, hcons, hht]
  simp only [List.isEmpty_cons, Bool.false_eq_true, if_false]
  rw [sendToOpenai_snd_call env (userMessage query) (c.message :: newMsgs)
    (some (ts.map toOpenAITool))]
  cases hfin : env.llm (userMessage query :: c.message :: newMsgs)
      (some (ts.map toOpenAITool)) "none" with
  | error m =>
    rw [llmStep_of_error env _ _ _ m hfin]
    simp [finalFromLLM, hfin]
  | ok fr =>
    rw [llmStep_of_ok env _ _ _ fr hfin]
    cases hfc : fr.choices with
    | nil => simp [finalFromLLM, hfin, hfc]
    | cons fc fcs => simp [finalFromLLM, hfin, hfc]

/-- C2: every tool-call request of the first LLM response yields exactly
one appended tool-role message keyed by that request's id, all appended in
request order before the follow-up LLM call, which is issued only after
every request is resolved. -/
theorem process_query_resolves_tool_calls (env : Env) (query : String)
    (ts : List ToolDescriptor) (resp : LLMResponse) (c : Choice) (cs : List Choice)
    (msgs2 : List Message) (tr2 : List Event)
    (hq : query ≠ "")
    (hlt : env.listTools = Except.ok ts)
    (hllm : env.llm [userMessage query] (some (ts.map toOpenAITool)) "auto" = Except.ok resp)
    (hch : resp.choices = c :: cs)
    (htc : c.message.tool_calls ≠ [])
    (hht : handleToolCalls env c.message.tool_calls [userMessage query, c.message] =
      (Except.ok msgs2, tr2)) :
    ∃ newMsgs : List Message,
      msgs2 = [userMessage query, c.message] ++ newMsgs ∧
      newMsgs.map Message.role = c.message.tool_calls.map (fun _ => Role.tool) ∧
      newMsgs.map Message.tool_call_id = c.message.tool_calls.map (fun tc => some tc.id) ∧
      tr2.map Event.toolName? = c.message.tool_calls.map (fun tc => some tc.name) ∧
      processQuery env query =
        (finalFromLLM env msgs2 (ts.map toOpenAITool),
          Event.llm [userMessage query] (some (ts.map toOpenAITool)) "auto" ::
            (tr2 ++ [Event.llm msgs2 (some (ts.map toOpenAITool)) "none"])) := by
  obtain ⟨newMsgs, hm2, hrole, hid, htr⟩ := handleToolCalls_ok_shape env _ _ _ _ hht
  exact ⟨newMsgs, hm2, hrole, hid, htr,
    processQuery_tool_branch env query ts resp c cs msgs2 tr2 hq hlt hllm hch htc hht⟩

theorem process_query_resolves_tool_calls_witness :
    ∃ newMsgs : List Message,
      wMsgs2 = [userMessage "q1", wAsstMessage] ++ newMsgs ∧
      newMsgs.map Message.role = [wTCa].map (fun _ => Role.tool) ∧
      newMsgs.map Message.tool_call_id = [wTCa].map (fun tc => some tc.id) ∧
      wTr2.map Event.toolName? = [wTCa].map (fun tc => some tc.name) ∧
      processQuery wEnvFlow "q1" =
        (finalFromLLM wEnvFlow wMsgs2 ([addTool].map toOpenAITool),
          Event.llm [userMessage "q1"] (some ([addTool].map toOpenAITool)) "auto" ::
            (wTr2 ++ [Event.llm wMsgs2 (some ([addTool].map toOpenAITool)) "none"])) :=
  process_query_resolves_tool_calls wEnvFlow "q1" [addTool]
    { choices := [{ message := wAsstMessage }] } { message := wAsstMessage } []
    wMsgs2 wTr2 (by decide) rfl rfl rfl (by decide) rfl

theorem isLlm_eq_false_of_toolName (ev : Event) (n : String)
    (h : ev.toolName? = some n) : ev.isLlm = false := by
  cases ev with
  | llm _ _ _ => simp [Event.toolName?] at h
  | tool _ _ => rfl

/-- A trace whose elements all carry tool names contains no llm events. -/
theorem filter_isLlm_eq_nil (tr : List Event) (names : List (Option String))
    (hnames : ∀ x ∈ names, ∃ n, x = some n)
    (h : tr.map Event.toolName? = names) :
    tr.filter Event.isLlm = [] := by
  rw [List.filter_eq_nil_iff]
  intro ev hev
  have hmem : Event.toolName? ev ∈ names := by
    rw [← h]
    exact List.mem_map_of_mem _ hev
  obtain ⟨n, hn⟩ := hnames _ hmem
  simp [isLlm_eq_false_of_toolName ev n hn]

/-- C4: when the first LLM response contains tool-call requests, the
orchestrator issues exactly one follow-up LLM call carrying the full
history (user message, assistant message with its requests, all tool-role
results) with tool choice "none", returns the second response's content,
and the query completes in exactly two LLM round trips. -/
theorem process_query_two_round_trips (env : Env) (query : String)
    (ts : List ToolDescriptor) (resp : LLMResponse) (c : Choice) (cs : List Choice)
    (msgs2 : List Message) (tr2 : List Event)
    (resp2 : LLMResponse) (c2 : Choice) (cs2 : List Choice)
    (hq : query ≠ "")
    (hlt : env.listTools = Except.ok ts)
    (hllm : env.llm [userMessage query] (some (ts.map toOpenAITool)) "auto" = Except.ok resp)
    (hch : resp.choices = c :: cs)
    (htc : c.message.tool_calls ≠ [])
    (hht : handleToolCalls env c.message.tool_calls [userMessage query, c.message] =
      (Except.ok msgs2, tr2))
    (hllm2 : env.llm msgs2 (some (ts.map toOpenAITool)) "none" = Except.ok resp2)
    (hch2 : resp2.choices = c2 :: cs2) :
    ∃ newMsgs : List Message,
      msgs2 = [userMessage query, c.message] ++ newMsgs ∧
      newMsgs.map Message.role = c.message.tool_calls.map (fun _ => Role.tool) ∧
      newMsgs.map Message.tool_call_id = c.message.tool_calls.map (fun tc => some tc.id) ∧
      processQuery env query =
        (Except.ok c2.message.content,
          Event.llm [userMessage query] (some (ts.map toOpenAITool)) "auto" ::
            (tr2 ++ [Event.llm msgs2 (some (ts.map toOpenAITool)) "none"])) ∧
      countLlm (Event.llm [userMessage query] (some (ts.map toOpenAITool)) "auto" ::
        (tr2 ++ [Event.llm msgs2 (some (ts.map toOpenAITool)) "none"])) = 2 := by
  obtain ⟨newMsgs, hm2, hrole, hid, htr⟩ := handleToolCalls_ok_shape env _ _ _ _ hht
  have hpq := processQuery_tool_branch env query ts resp c cs msgs2 tr2 hq hlt hllm hch htc hht
  refine ⟨newMsgs, hm2, hrole, hid, ?_, ?_⟩
  · rw [hpq]
    simp [finalFromLLM, hllm2, hch2]
  · have hfil : tr2.filter Event.isLlm = [] :=
      filter_isLlm_eq_nil tr2 (c.message.tool_calls.map (fun tc => some tc.name))
        (by intro x hx; obtain ⟨tc, -, hx2⟩ := List.mem_map.mp hx; exact ⟨tc.name, hx2.symm⟩)
        htr
    simp [countLlm, List.filter_append, hfil, Event.isLlm]

theorem process_query_two_round_trips_witness :
    ∃ newMsgs : List Message,
      wMsgs2 = [userMessage "q1", wAsstMessage] ++ newMsgs ∧
      newMsgs.map Message.role = [wTCa].map (fun _ => Role.tool) ∧
      newMsgs.map Message.tool_call_id = [wTCa].map (fun tc => some tc.id) ∧
      processQuery wEnvFlow "q1" =
        (Except.ok (some "1 plus 1 is 2."),
          Event.llm [userMessage "q1"] (some ([addTool].map toOpenAITool)) "auto" ::
            (wTr2 ++ [Event.llm wMsgs2 (some ([addTool].map toOpenAITool)) "none"])) ∧
      countLlm (Event.llm [userMessage "q1"] (some ([addTool].map toOpenAITool)) "auto" ::
        (wTr2 ++ [Event.llm wMsgs2 (some ([addTool].map toOpenAITool)) "none"])) = 2 :=
  process_query_two_round_trips wEnvFlow "q1" [addTool]
    { choices := [{ message := wAsstMessage }] } { message := wAsstMessage } []
    wMsgs2 wTr2 { choices := [{ message := wFinalMessage }] } { message := wFinalMessage } []
    (by decide) rfl rfl rfl (by decide) rfl rfl rfl

theorem process_query_no_tool_calls_witness :
    processQuery wEnvDirect "hello" =
      (Except.ok (some "Hello there."),
        [Event.llm [userMessage "hello"] (some ([addTool].map toOpenAITool)) "auto"]) ∧
    countLlm [Event.llm [userMessage "hello"] (some ([addTool].map toOpenAITool)) "auto"] = 1 ∧
    countTool [Event.llm [userMessage "hello"] (some ([addTool].map toOpenAITool)) "auto"] = 0 :=
  process_query_no_tool_calls wEnvDirect "hello" [addTool]
    { choices := [{ message := wDirectMessage }] } { message := wDirectMessage } []
    (by decide) rfl rfl rfl rfl

/-- C5: a failure during tool dispatch is not recovered locally: the error
propagates verbatim out of `process_query`, the query yields no answer, the
dispatched tool calls form an order-preserving initial segment of the
requests (no retry, no further dispatch after the failure), and no
follow-up LLM call is issued. -/
theorem process_query_failure_propagates (env : Env) (query : String)
    (ts : List ToolDescriptor) (resp : LLMResponse) (c : Choice) (cs : List Choice)
    (e : Err) (tr2 : List Event)
    (hq : query ≠ "")
    (hlt : env.listTools = Except.ok ts)
    (hllm : env.llm [userMessage query] (some (ts.map toOpenAITool)) "auto" = Except.ok resp)
    (hch : resp.choices = c :: cs)
    (htc : c.message.tool_calls ≠ [])
    (hht : handleToolCalls env c.message.tool_calls [userMessage query, c.message] =
      (Except.error e, tr2)) :
    processQuery env query =
      (Except.error e,
        Event.llm [userMessage query] (some (ts.map toOpenAITool)) "auto" :: tr2) ∧
    (∀ s, (processQuery env query).1 ≠ Except.ok s) ∧
    tr2.length ≤ c.message.tool_calls.length ∧
    tr2.map Event.toolName? =
      (c.message.tool_calls.take tr2.length).map (fun tc => some tc.name) ∧
    countLlm (Event.llm [userMessage query] (some (ts.map toOpenAITool)) "auto" :: tr2) = 1 := by
  obtain ⟨hlen, htr⟩ := handleToolCalls_error_shape env _ _ _ _ hht
  obtain ⟨tc0, tcs0, hcons⟩ := List.exists_cons_of_ne_nil htc
  rw [hcons] at hht
  have hmain : processQuery env query =
      (Except.error e,
        Event.llm [userMessage query] (some (ts.map toOpenAITool)) "auto" :: tr2) := by
    unfold processQuery
    simp [show getMcpTools env = Except.ok (ts.map toOpenAITool) from by
        simp [getMcpTools, hlt],
      sendToOpenai_fst_call env query (some (ts.map toOpenAITool)) hq,
      llmStep_of_ok env _ _ _ resp hllm, hch, hcons, hht]
  have hfil : tr2.filter Event.isLlm = [] :=
    filter_isLlm_eq_nil tr2
      ((c.message.tool_calls.take tr2.length).map (fun tc => some tc.name))
      (by intro x hx; obtain ⟨tc, -, hx2⟩ := List.mem_map.mp hx; exact ⟨tc.name, hx2.symm⟩)
      htr
  refine ⟨hmain, ?_, hlen, htr, ?_⟩
  · intro s
    rw [hmain]
    simp
  · simp [countLlm, hfil, Event.isLlm]

theorem process_query_failure_propagates_witness :
    processQuery wEnvFail "q1" =
      (Except.error (Err.transportError "connection lost"),
        Event.llm [userMessage "q1"] (some ([addTool].map toOpenAITool)) "auto" :: wTr2) ∧
    (∀ s, (processQuery wEnvFail "q1").1 ≠ Except.ok s) ∧
    wTr2.length ≤ [wTCa].length ∧
    wTr2.map Event.toolName? =
      ([wTCa].take wTr2.length).map (fun tc => some tc.name) ∧
    countLlm (Event.llm [userMessage "q1"] (some ([addTool].map toOpenAITool)) "auto" ::
      wTr2) = 1 :=
  process_query_failure_propagates wEnvFail "q1" [addTool]
    { choices := [{ message := wAsstMessage }] } { message := wAsstMessage } []
    (Err.transportError "connection lost") wTr2
    (by decide) rfl rfl rfl (by decide) rfl

/-- C8: in both top-level routines, once the transport connection is
acquired it is the first event, every use of the connection happens
between acquisition and release, and the release events close the trace
unconditionally — on the success path and on every failure path alike
(the result component is arbitrary, failures included). -/
theorem main_transport_scoped (menv : MainEnv) (env : Env)
    (hsse : menv.sseConnect = Except.ok ())
    (hsess : menv.sessionEnter = Except.ok ()) :
    (∃ res inner, runMain menv env =
        (res, REvent.sseAcquire :: REvent.sessionAcquire ::
          (inner ++ [REvent.sessionRelease, REvent.sseRelease])) ∧
      ∀ ev ∈ inner, ev = REvent.sessionInit ∨ ev = REvent.listToolsCall ∨
        ev = REvent.queryRun) ∧
    (∃ res2 inner2, runMainSse menv env =
        (res2, REvent.sseAcquire :: REvent.sessionAcquire ::
          (inner2 ++ [REvent.sessionRelease, REvent.sseRelease])) ∧
      ∀ ev ∈ inner2, ev = REvent.sessionInit ∨ ev = REvent.listToolsCall ∨
        ev = REvent.callToolUse) := by
  constructor
  · cases hin : menv.sessInit with
    | error e =>
      refine ⟨Except.error e, [REvent.sessionInit], ?_, by decide⟩
      simp [runMain, asyncWith, hsse, hsess, connectToServer, hin]
    | ok u =>
      cases hlt : env.listTools with
      | error e =>
        refine ⟨Except.error e, [REvent.sessionInit, REvent.listToolsCall], ?_, by decide⟩
        simp [runMain, asyncWith, hsse, hsess, connectToServer, hin, hlt]
      | ok ts =>
        refine ⟨(processQuery env mainQuery).1,
          [REvent.sessionInit, REvent.listToolsCall, REvent.queryRun], ?_, by decide⟩
        simp [runMain, asyncWith, hsse, hsess, connectToServer, hin, hlt]
  · cases hin : menv.sessInit with
    | error e =>
      refine ⟨Except.error e, [REvent.sessionInit], ?_, by decide⟩
      simp [runMainSse, asyncWith, hsse, hsess, hin]
    | ok u =>
      cases hlt : env.listTools with
      | error e =>
        refine ⟨Except.error e, [REvent.sessionInit, REvent.listToolsCall], ?_, by decide⟩
        simp [runMainSse, asyncWith, hsse, hsess, hin, hlt]
      | ok ts =>
        cases hct : env.callTool "add" [("a", JValue.jint 2), ("b", JValue.jint 3)] with
        | error e =>
          refine ⟨Except.error e,
            [REvent.sessionInit, REvent.listToolsCall, REvent.callToolUse], ?_, by decide⟩
          simp [runMainSse, asyncWith, hsse, hsess, hin, hlt, hct]
        | ok result =>
          cases hc : result.content with
          | nil =>
            refine ⟨Except.error Err.indexError,
              [REvent.sessionInit, REvent.listToolsCall, REvent.callToolUse], ?_, by decide⟩
            simp [runMainSse, asyncWith, hsse, hsess, hin, hlt, hct, hc]
          | cons item tail =>
            refine ⟨Except.ok item.text,
              [REvent.sessionInit, REvent.listToolsCall, REvent.callToolUse], ?_, by decide⟩
            simp [runMainSse, asyncWith, hsse, hsess, hin, hlt, hct, hc]

theorem main_transport_scoped_witness :
    (∃ res inner, runMain wMainEnv wEnvDown =
        (res, REvent.sseAcquire :: REvent.sessionAcquire ::
          (inner ++ [REvent.sessionRelease, REvent.sseRelease])) ∧
      ∀ ev ∈ inner, ev = REvent.sessionInit ∨ ev = REvent.listToolsCall ∨
        ev = REvent.queryRun) ∧
    (∃ res2 inner2, runMainSse wMainEnv wEnvDown =
        (res2, REvent.sseAcquire :: REvent.sessionAcquire ::
          (inner2 ++ [REvent.sessionRelease, REvent.sseRelease])) ∧
      ∀ ev ∈ inner2, ev = REvent.sessionInit ∨ ev = REvent.listToolsCall ∨
        ev = REvent.callToolUse) :=
  main_transport_scoped wMainEnv wEnvDown rfl rfl

end BasicMCP
